import Mathlib

/-!
Verification of the crypto price tracker
(`advanced_ai_agents/single_agent_apps/ai_personal_finance_agent/crypto_tracker.py`).

The core of the program is a per-instrument sliding window of `(timestamp, price)`
samples, a percent-change computation over a window, a TTL cache around the
product-catalog retrieval, and a concurrent price-fetch phase whose per-instrument
errors are caught and turned into `None` results.

Shallow embedding conventions:
* Python floats (prices, second-granularity time differences) are modelled as `ℚ`.
* Timestamps are modelled as `ℚ` seconds (the code only ever uses
  `(current_time - window[0][0]).total_seconds()`, a numeric difference).
* A `deque(maxlen=n)` is a `List` together with the `dequeAppend` operation that
  discards from the front when an append would exceed `n`.
* Fallible Python code is modelled with `Except PyError`; a `try/except` that
  returns a default becomes a total function.  Python's float division raises
  `ZeroDivisionError` on a zero divisor, so the embedding of `a / b` in
  `compute_pct_change` guards on `b = 0` and produces
  `Except.error PyError.zeroDivisionError` there.
* Network I/O is an oracle parameter: each fetch receives the outcome
  (`Except PyError` of the parsed payload) the network would have produced.
-/

namespace CryptoTracker

/-- Constant `WINDOW_SECONDS = 300` from the source (5 minutes). -/
def WINDOW_SECONDS : ℚ := 300

/-- Constant `MAX_WORKERS = 10` from the source, commented there as
"Maximum number of concurrent API calls". -/
def MAX_WORKERS : Nat := 10

/-- TTL passed to `cache_with_timeout` on `get_products` (300 seconds). -/
def PRODUCTS_CACHE_TTL : ℚ := 300

/-- Exceptions the embedded fragments can raise or catch. -/
inductive PyError where
  | zeroDivisionError
  | requestError (msg : String)
deriving DecidableEq

/-- A price sample `(timestamp, price)` as stored in a price window. -/
abbrev Sample := ℚ × ℚ

/-- The `while` loop at the head of `update_window`:
`while window and (current_time - window[0][0]).total_seconds() > WINDOW_SECONDS:
window.popleft()`, parametrised by the window duration (the source uses the
constant `WINDOW_SECONDS`). -/
def evictOlderThan (now windowDuration : ℚ) : List Sample → List Sample
  | [] => []
  | s :: rest =>
    if now - s.1 > windowDuration then evictOlderThan now windowDuration rest
    else s :: rest

/-- `deque.append` on a `deque(maxlen=maxlen)`: when the append would exceed
`maxlen`, elements are discarded from the front. -/
def dequeAppend (maxlen : Nat) (w : List Sample) (s : Sample) : List Sample :=
  let w2 := w ++ [s]
  if maxlen < w2.length then w2.drop (w2.length - maxlen) else w2

/-- `update_window(window, current_time, price)`: age-based front eviction, then
`window.append((current_time, price))` on the `maxlen`-bounded deque.  The source
always calls it on `deque(maxlen=100)` (created in `update_prices_async`). -/
def update_window (maxlen : Nat) (w : List Sample) (current_time price : ℚ) :
    List Sample :=
  dequeAppend maxlen (evictOlderThan current_time WINDOW_SECONDS w) (current_time, price)

/-- A whole history of `update_window` calls on an initially empty
`deque(maxlen=100)`, one per fetched `(timestamp, price)`. -/
def run_appends (ops : List (ℚ × ℚ)) : List Sample :=
  ops.foldl (fun w op => update_window 100 w op.1 op.2) []

/-- The tuple returned by `compute_pct_change` on a non-empty window. -/
structure ChangeResult where
  baseline_time : ℚ
  baseline_price : ℚ
  current_time : ℚ
  current_price : ℚ
  pct_change : ℚ
deriving DecidableEq

/-- `compute_pct_change(window)`: `None` on an empty window, else baseline is
`window[0]`, current is `window[-1]`, and
`pct_change = ((current_price - baseline_price) / baseline_price) * 100`.
The source has no guard on `baseline_price == 0`; Python's division raises
`ZeroDivisionError` there, which the embedding renders as `Except.error`. -/
def compute_pct_change : List Sample → Except PyError (Option ChangeResult)
  | [] => Except.ok none
  | s :: rest =>
    let cur := (s :: rest).getLast (List.cons_ne_nil s rest)
    if s.2 = 0 then Except.error PyError.zeroDivisionError
    else Except.ok (some ⟨s.1, s.2, cur.1, cur.2, (cur.2 - s.2) / s.2 * 100⟩)

/-- One entry of the Coinbase products payload, restricted to the fields the
code reads (`id`, `quote_currency`). -/
structure RawProduct where
  id : String
  quote_currency : String
deriving DecidableEq

/-- The body of `get_products` (inside the cache decorator): on success filter
to USD-quoted products; on any exception, catch it, and return `[]`. -/
def get_products_body (fetch : Except PyError (List RawProduct)) :
    List RawProduct :=
  match fetch with
  | Except.ok products => products.filter (fun p => p.quote_currency == "USD")
  | Except.error _ => []

/-- `get_products` as wrapped by `cache_with_timeout(300)`.  The cache state is
`some (value, storeTime)` once a call has completed, `none` before the first
call.  Returns the value handed to the caller, the new cache state, and whether
the underlying retrieval (`requests.get`) was attempted on this call. -/
def get_products (fetch : Except PyError (List RawProduct)) (now : ℚ)
    (cache : Option (List RawProduct × ℚ)) :
    List RawProduct × Option (List RawProduct × ℚ) × Bool :=
  match cache with
  | some (v, t) =>
    if now - t < PRODUCTS_CACHE_TTL then (v, some (v, t), false)
    else
      let r := get_products_body fetch
      (r, some (r, now), true)
  | none =>
    let r := get_products_body fetch
    (r, some (r, now), true)

/-- `fetch_price_async(session, product_id)`: on success returns
`(product_id, receipt time, float(data['price']))`; every exception is caught
and turned into `None`. -/
def fetch_price_async (pid : String) (now : ℚ) (resp : Except PyError ℚ) :
    Option (String × ℚ × ℚ) :=
  match resp with
  | Except.ok price => some (pid, now, price)
  | Except.error _ => none

/-- The price fan-out of `update_prices_async`: one `fetch_price_async` task per
product, gathered into a positional result list.  Each request is a
`(product id, receipt time, network outcome)` triple. -/
def gather_prices (reqs : List (String × ℚ × Except PyError ℚ)) :
    List (Option (String × ℚ × ℚ)) :=
  reqs.map (fun r => fetch_price_async r.1 r.2.1 r.2.2)

/-- The `price_tasks` list comprehension of `update_prices_async`: one task per
product, all of which are handed to a single `asyncio.gather(*price_tasks)`
with no semaphore or pool bound — every task is in flight concurrently. -/
def price_tasks (products : List RawProduct) : List String :=
  products.map (fun p => p.id)

/-- Number of fetches simultaneously in flight during the fan-out: `gather`
runs every task in `price_tasks` concurrently. -/
def gather_in_flight (products : List RawProduct) : Nat :=
  (price_tasks products).length

/-- A catalog of eleven USD-quoted products. -/
def elevenProducts : List RawProduct :=
  (List.range 11).map (fun i => ⟨toString i ++ "-USD", "USD"⟩)

/-- A one-product catalog used as a concrete cached value. -/
def product_BTC : RawProduct := ⟨"BTC-USD", "USD"⟩

/- ### Helper lemmas -/

theorem evictOlderThan_suffix (now W : ℚ) (w : List Sample) :
    evictOlderThan now W w <:+ w := by
  induction w with
  | nil => simp [evictOlderThan]
  | cons a rest ih =>
    rw [evictOlderThan]
    by_cases h : now - a.1 > W
    · rw [if_pos h]
      exact ih.trans (List.suffix_cons a rest)
    · rw [if_neg h]

theorem dequeAppend_length_le (n : Nat) (w : List Sample) (s : Sample) :
    (dequeAppend n w s).length ≤ n := by
  unfold dequeAppend
  by_cases h : n < (w ++ [s]).length
  · rw [if_pos h, List.length_drop]
    omega
  · rw [if_neg h]
    simp at h ⊢
    omega

theorem dequeAppend_concat_form (n : Nat) (w : List Sample) (s : Sample)
    (hn : 0 < n) :
    ∃ w2, w2 <:+ w ∧ dequeAppend n w s = w2 ++ [s] := by
  unfold dequeAppend
  by_cases h : n < (w ++ [s]).length
  · refine ⟨w.drop ((w ++ [s]).length - n), List.drop_suffix _ _, ?_⟩
    rw [if_pos h, List.drop_append_of_le_length]
    simp at h ⊢
    omega
  · exact ⟨w, List.suffix_refl w, by rw [if_neg h]⟩

theorem run_appends_aux (ops : List (ℚ × ℚ)) :
    ∀ w : List Sample, w.length ≤ 100 →
      (ops.foldl (fun acc op => update_window 100 acc op.1 op.2) w).length ≤ 100 := by
  induction ops with
  | nil => intro w hw; simpa using hw
  | cons op rest ih =>
    intro w hw
    simp only [List.foldl_cons]
    apply ih
    exact dequeAppend_length_le 100 _ _

/- ### Claims -/

/-- C5: for every buffer whose timestamps are pairwise non-decreasing (as
produced by appends with non-decreasing timestamps), after the age-based
eviction pass of `update_window` at time `now` with window duration
`windowDuration`, every remaining sample `s` satisfies
`now - s.timestamp ≤ windowDuration`. -/
theorem evictOlderThan_all_fresh (now windowDuration : ℚ) (w : List Sample)
    (hw : w.Pairwise (fun a b => a.1 ≤ b.1)) :
    ∀ s ∈ evictOlderThan now windowDuration w, now - s.1 ≤ windowDuration := by
  induction w with
  | nil => intro s hs; simp [evictOlderThan] at hs
  | cons a rest ih =>
    rw [List.pairwise_cons] at hw
    intro s hs
    rw [evictOlderThan] at hs
    by_cases h : now - a.1 > windowDuration
    · rw [if_pos h] at hs
      exact ih hw.2 s hs
    · rw [if_neg h] at hs
      rcases List.mem_cons.mp hs with hs | hs
      · subst hs; linarith
      · have := hw.1 s hs
        linarith

theorem evictOlderThan_all_fresh_witness :
    List.Pairwise (fun a b : Sample => a.1 ≤ b.1) [((0 : ℚ), (1 : ℚ)), ((60 : ℚ), (2 : ℚ))] ∧
    ((60 : ℚ), (2 : ℚ)) ∈ evictOlderThan 100 50 [((0 : ℚ), (1 : ℚ)), ((60 : ℚ), (2 : ℚ))] ∧
    (100 : ℚ) - ((60 : ℚ), (2 : ℚ)).1 ≤ 50 := by
  refine ⟨?_, ?_, ?_⟩
  · norm_num [List.pairwise_cons]
  · norm_num [evictOlderThan]
  · exact evictOlderThan_all_fresh 100 50 [((0 : ℚ), (1 : ℚ)), ((60 : ℚ), (2 : ℚ))]
      (by norm_num [List.pairwise_cons]) ((60 : ℚ), (2 : ℚ))
      (by norm_num [evictOlderThan])

/-- C6: after any sequence of appends through `update_window` on the
`deque(maxlen=100)` the buffer length never exceeds 100 (in fact any single
`update_window` call returns a buffer of length at most 100); moreover every
append evicts only from the front: the result of `update_window` is a suffix of
the age-evicted buffer with the new sample appended. -/
theorem buffer_capacity_bounded :
    (∀ ops : List (ℚ × ℚ), (run_appends ops).length ≤ 100) ∧
    (∀ (w : List Sample) (t p : ℚ),
      (update_window 100 w t p).length ≤ 100 ∧
      update_window 100 w t p <:+ evictOlderThan t WINDOW_SECONDS w ++ [(t, p)]) := by
  constructor
  · intro ops
    exact run_appends_aux ops [] (by simp)
  · intro w t p
    constructor
    · exact dequeAppend_length_le 100 _ _
    · rw [update_window]
      unfold dequeAppend
      by_cases h : 100 < ((evictOlderThan t WINDOW_SECONDS w) ++ [(t, p)]).length
      · rw [if_pos h]
        exact List.drop_suffix _ _
      · rw [if_neg h]

/-- C10: every `update_window` call yields a non-empty buffer whose last element
is exactly the appended sample `(t, p)`; the elements before it form a suffix of
the prior buffer (removal happens only at the front, and the new sample is never
evicted by the same call). -/
theorem update_window_shape (w : List Sample) (t p : ℚ) :
    update_window 100 w t p ≠ [] ∧
    (update_window 100 w t p).getLast? = some (t, p) ∧
    (update_window 100 w t p).dropLast <:+ w := by
  obtain ⟨w2, hsuf, heq⟩ :=
    dequeAppend_concat_form 100 (evictOlderThan t WINDOW_SECONDS w) (t, p) (by norm_num)
  have hupd : update_window 100 w t p = w2 ++ [(t, p)] := by
    rw [update_window, heq]
  refine ⟨?_, ?_, ?_⟩
  · rw [hupd]; simp
  · rw [hupd]; exact List.getLast?_concat w2
  · rw [hupd, List.dropLast_concat]
    exact hsuf.trans (evictOlderThan_suffix t WINDOW_SECONDS w)

/-- C1 counterexample: on the two-sample window `[(0, 0), (1, 5)]` whose
baseline price is 0, `compute_pct_change` does not produce a distinguishable
`DegenerateBaseline` error (no such error exists anywhere in the code); the
division `(current - baseline) / baseline` raises Python's plain unhandled
`ZeroDivisionError`, which no caller catches. -/
theorem zero_baseline_cex :
    compute_pct_change [((0 : ℚ), (0 : ℚ)), ((1 : ℚ), (5 : ℚ))] =
      Except.error PyError.zeroDivisionError := by
  norm_num [compute_pct_change]

/-- C1 amended: for every window with baseline price 0 and at least two
samples, `compute_pct_change` fails with an unhandled `ZeroDivisionError`
(so it never returns a NaN/infinity value or any result tuple), but there is
no distinguishable `DegenerateBaseline` error in the code. -/
theorem zero_baseline_raises (t : ℚ) (rest : List Sample) (_hr : rest ≠ []) :
    compute_pct_change ((t, 0) :: rest) = Except.error PyError.zeroDivisionError := by
  rw [compute_pct_change]
  simp

theorem zero_baseline_raises_witness :
    ([((1 : ℚ), (5 : ℚ))] : List Sample) ≠ [] ∧
    compute_pct_change [((0 : ℚ), (0 : ℚ)), ((1 : ℚ), (5 : ℚ))] =
      Except.error PyError.zeroDivisionError :=
  ⟨by simp, zero_baseline_raises 0 [((1 : ℚ), (5 : ℚ))] (by simp)⟩

/-- C7: `compute_pct_change` on an empty window returns the distinguishable
"no data" value `None` (not an error), and on a one-sample window `[(t, p)]`
(samples carry positive prices, per the data model) it returns a result whose
baseline equals its current sample and whose percent change is exactly 0. -/
theorem single_sample_zero_change :
    compute_pct_change [] = Except.ok none ∧
    ∀ (t p : ℚ), 0 < p →
      compute_pct_change [(t, p)] = Except.ok (some ⟨t, p, t, p, 0⟩) := by
  constructor
  · rfl
  · intro t p hp
    rw [compute_pct_change]
    rw [if_neg (by exact ne_of_gt hp)]
    simp [List.getLast]

theorem single_sample_zero_change_witness :
    (0 : ℚ) < 5 ∧
    compute_pct_change [((3 : ℚ), (5 : ℚ))] =
      Except.ok (some ⟨3, 5, 3, 5, 0⟩) :=
  ⟨by norm_num, single_sample_zero_change.2 3 5 (by norm_num)⟩

/-- C8: on every non-empty window whose baseline (first) price is nonzero,
`compute_pct_change` takes the first sample as baseline and the last as
current and returns `(current.price - baseline.price) / baseline.price * 100`;
concretely, baseline 100 with current 110 yields 10 and baseline 100 with
current 90 yields -10. -/
theorem pct_change_formula :
    (∀ (w : List Sample) (h : w ≠ []), (w.head h).2 ≠ 0 →
      compute_pct_change w = Except.ok (some
        ⟨(w.head h).1, (w.head h).2, (w.getLast h).1, (w.getLast h).2,
          ((w.getLast h).2 - (w.head h).2) / (w.head h).2 * 100⟩)) ∧
    compute_pct_change [((0 : ℚ), (100 : ℚ)), ((1 : ℚ), (110 : ℚ))] =
      Except.ok (some ⟨0, 100, 1, 110, 10⟩) ∧
    compute_pct_change [((0 : ℚ), (100 : ℚ)), ((1 : ℚ), (90 : ℚ))] =
      Except.ok (some ⟨0, 100, 1, 90, -10⟩) := by
  refine ⟨?_, by norm_num [compute_pct_change, List.getLast], by norm_num [compute_pct_change, List.getLast]⟩
  intro w h hb
  match w with
  | s :: rest =>
    rw [compute_pct_change]
    rw [if_neg (by simpa using hb)]
    rfl

theorem pct_change_formula_witness :
    ([((0 : ℚ), (100 : ℚ)), ((1 : ℚ), (110 : ℚ))] : List Sample) ≠ [] ∧
    compute_pct_change [((0 : ℚ), (100 : ℚ)), ((1 : ℚ), (110 : ℚ))] =
      Except.ok (some
        ⟨0, 100, 1, 110, ((110 : ℚ) - 100) / 100 * 100⟩) := by
  refine ⟨by simp, ?_⟩
  have h := pct_change_formula.1 [((0 : ℚ), (100 : ℚ)), ((1 : ℚ), (110 : ℚ))]
    (by simp) (by norm_num [List.head])
  simpa [List.head, List.getLast] using h

/-- C2 counterexample: a successful retrieval at time 0 cached
`[product_BTC]`; at time 400 (past the 300 s TTL) the retrieval fails, and
`get_products` returns `[]` — not the last-good list `[product_BTC]` — because
the `except` branch of `get_products` returns `[]` and the cache wrapper then
stores that `[]` as the new cached value. -/
theorem stale_cache_not_used_cex :
    (get_products (Except.error (PyError.requestError "boom")) 400
        (some ([product_BTC], 0))).1 = [] ∧
    ([product_BTC] : List RawProduct) ≠ [] := by
  constructor
  · norm_num [get_products, get_products_body, PRODUCTS_CACHE_TTL]
  · simp

/-- C2 amended: whenever the underlying retrieval actually runs (the cache is
absent or at least TTL-old) and fails, `get_products` returns the empty list —
even when a previously retrieved list exists — and overwrites the cache with
that empty list; the failure is non-fatal (the exception is caught and an
ordinary empty list is handed to the caller).  A prior list is returned only
when the call lands within the TTL, in which case no retrieval is attempted at
all. -/
theorem failed_retrieval_returns_empty (e : PyError) (now : ℚ)
    (cache : Option (List RawProduct × ℚ))
    (hstale : ∀ v t, cache = some (v, t) → PRODUCTS_CACHE_TTL ≤ now - t) :
    get_products (Except.error e) now cache = ([], some ([], now), true) := by
  match cache with
  | none => rfl
  | some (v, t) =>
    have h := hstale v t rfl
    rw [get_products]
    rw [if_neg (by linarith)]
    rfl

theorem failed_retrieval_returns_empty_witness :
    (∀ v t, (some ([product_BTC], (0 : ℚ)) : Option (List RawProduct × ℚ)) = some (v, t) →
      PRODUCTS_CACHE_TTL ≤ (400 : ℚ) - t) ∧
    get_products (Except.error (PyError.requestError "boom")) 400
        (some ([product_BTC], 0)) = ([], some ([], 400), true) := by
  have hstale : ∀ v t, (some ([product_BTC], (0 : ℚ)) : Option (List RawProduct × ℚ)) = some (v, t) →
      PRODUCTS_CACHE_TTL ≤ (400 : ℚ) - t := by
    intro v t hvt
    rw [Option.some.injEq, Prod.mk.injEq] at hvt
    rw [← hvt.2]
    norm_num [PRODUCTS_CACHE_TTL]
  exact ⟨hstale, failed_retrieval_returns_empty (PyError.requestError "boom") 400
    (some ([product_BTC], 0)) hstale⟩

/-- C9: starting from an empty cache, the first `get_products` call performs
the underlying retrieval and stores the result; a second call strictly within
the 300 s TTL performs no retrieval and returns exactly the cached list with
the cache unchanged; a call at or after TTL expiry performs a second
retrieval. -/
theorem cache_ttl_behaviour (f1 f2 f3 : Except PyError (List RawProduct))
    (t1 t2 t3 : ℚ) (h12 : t2 - t1 < PRODUCTS_CACHE_TTL)
    (h13 : PRODUCTS_CACHE_TTL ≤ t3 - t1) :
    (get_products f1 t1 none).2.2 = true ∧
    get_products f2 t2 (get_products f1 t1 none).2.1 =
      ((get_products f1 t1 none).1, (get_products f1 t1 none).2.1, false) ∧
    (get_products f3 t3 (get_products f1 t1 none).2.1).2.2 = true := by
  have h1 : get_products f1 t1 none =
      (get_products_body f1, some (get_products_body f1, t1), true) := rfl
  refine ⟨by rw [h1], ?_, ?_⟩
  · rw [h1]
    rw [get_products]
    rw [if_pos h12]
  · rw [h1]
    rw [get_products]
    rw [if_neg (by linarith)]

theorem cache_ttl_behaviour_witness :
    ((100 : ℚ) - 0 < PRODUCTS_CACHE_TTL ∧ PRODUCTS_CACHE_TTL ≤ (300 : ℚ) - 0) ∧
    (get_products (Except.ok [product_BTC]) 0 none).2.2 = true ∧
    get_products (Except.ok [product_BTC]) 100 (get_products (Except.ok [product_BTC]) 0 none).2.1 =
      ((get_products (Except.ok [product_BTC]) 0 none).1,
        (get_products (Except.ok [product_BTC]) 0 none).2.1, false) ∧
    (get_products (Except.ok [product_BTC]) 300 (get_products (Except.ok [product_BTC]) 0 none).2.1).2.2 = true := by
  have h12 : (100 : ℚ) - 0 < PRODUCTS_CACHE_TTL := by norm_num [PRODUCTS_CACHE_TTL]
  have h13 : PRODUCTS_CACHE_TTL ≤ (300 : ℚ) - 0 := by norm_num [PRODUCTS_CACHE_TTL]
  exact ⟨⟨h12, h13⟩,
    cache_ttl_behaviour (Except.ok [product_BTC]) (Except.ok [product_BTC])
      (Except.ok [product_BTC]) 0 100 300 h12 h13⟩

/-- C4: the fetch phase returns one positional outcome per requested
instrument: requests whose network outcome succeeds with price `p` yield
`some (id, time, p)` at the same position, requests whose outcome is an error
yield `none` at the same position (the exception is caught inside
`fetch_price_async`, so no failure escapes the phase), and no instrument's
successful result is dropped because another failed. -/
theorem fetch_partial_failure (reqs : List (String × ℚ × Except PyError ℚ)) :
    (gather_prices reqs).length = reqs.length ∧
    (∀ (i : Nat) (pid : String) (t p : ℚ),
      reqs[i]? = some (pid, t, Except.ok p) →
        (gather_prices reqs)[i]? = some (some (pid, t, p))) ∧
    (∀ (i : Nat) (pid : String) (t : ℚ) (e : PyError),
      reqs[i]? = some (pid, t, Except.error e) →
        (gather_prices reqs)[i]? = some none) := by
  refine ⟨by simp [gather_prices], ?_, ?_⟩
  · intro i pid t p hi
    rw [gather_prices, List.getElem?_map, hi]
    rfl
  · intro i pid t e hi
    rw [gather_prices, List.getElem?_map, hi]
    rfl

/-- Five requests in which the third fails and the others succeed. -/
def fiveReqs : List (String × ℚ × Except PyError ℚ) :=
  [("A-USD", 1, Except.ok 10), ("B-USD", 2, Except.ok 20),
   ("C-USD", 3, Except.error (PyError.requestError "boom")),
   ("D-USD", 4, Except.ok 40), ("E-USD", 5, Except.ok 50)]

theorem fetch_partial_failure_witness :
    fiveReqs[2]? = some ("C-USD", 3, Except.error (PyError.requestError "boom")) ∧
    fiveReqs[3]? = some ("D-USD", 4, Except.ok 40) ∧
    (gather_prices fiveReqs)[2]? = some none ∧
    (gather_prices fiveReqs)[3]? = some (some ("D-USD", 4, 40)) :=
  ⟨rfl, rfl,
    (fetch_partial_failure fiveReqs).2.2 2 "C-USD" 3 (PyError.requestError "boom") rfl,
    (fetch_partial_failure fiveReqs).2.1 3 "D-USD" 4 40 rfl⟩

/-- C3: the claim that at most `MAX_WORKERS = 10` price requests are ever in
flight fails on the code — `update_prices_async` hands the complete
`price_tasks` list to a single `asyncio.gather` with no semaphore or worker
pool, so with eleven catalog products eleven requests are in flight at once,
exceeding the documented bound (`MAX_WORKERS` is defined, commented
"Maximum number of concurrent API calls", and never used). -/
theorem unbounded_fan_out :
    gather_in_flight elevenProducts = 11 ∧
    MAX_WORKERS = 10 ∧
    MAX_WORKERS < gather_in_flight elevenProducts := by
  refine ⟨?_, rfl, ?_⟩ <;>
    simp [gather_in_flight, price_tasks, elevenProducts, MAX_WORKERS]

end CryptoTracker
